import Mathlib

/-!
Shallow embedding of the Goodreads shelf scraper
(`src/wordlists/goodscraper.py`) and proofs about its specification.

Conventions of the embedding:
* Python strings are Lean `String`s; `str | None` values are `Option String`.
* Python `int` is Lean `Int` (page counts, years, per-page sizes).
* Regular expressions over `\d` are modelled over ASCII decimal digits.
* The filesystem probed by `os.path.exists` is an abstract predicate
  `String → Bool` passed as a parameter.
* The BeautifulSoup document is modelled as the list of `tr` elements in
  document order, each carrying its class attribute and its `td` cells;
  `get_text(strip=True)` of a node is modelled as Python `str.strip` of the
  node's stored text.
-/

namespace GoodScraper

/-- Python whitespace characters recognised by `str.strip` (ASCII subset). -/
def pyWS (c : Char) : Bool :=
  c = ' ' || c = '\t' || c = '\n' || c = '\r' || c = '\x0b' || c = '\x0c'

/-- Model of Python `str.strip()`: drop leading and trailing whitespace. -/
def pyStrip (s : String) : String :=
  ⟨((s.data.dropWhile pyWS).reverse.dropWhile pyWS).reverse⟩

/-- Model of Python `sep.join(parts)`. -/
def pyJoin (sep : String) : List String → String
  | [] => ""
  | [x] => x
  | x :: y :: xs => x ++ sep ++ pyJoin sep (y :: xs)

/-- Numeric value of a list of ASCII decimal digits (as read left to right). -/
def natOfDigits (cs : List Char) : Nat :=
  cs.foldl (fun n c => n * 10 + (c.toNat - 48)) 0

/-- Base URL constant `GOODREADS_BASE` of the scraper. -/
def GOODREADS_BASE : String := "https://www.goodreads.com"

/-- Model of Python `str.isdigit` restricted to ASCII: nonempty and all
decimal digits. -/
def isAllDigits (s : String) : Bool :=
  !s.data.isEmpty && s.data.all Char.isDigit

/-- Model of Python `s.startswith(pre)`. -/
def pyStartswith (s pre : String) : Bool :=
  pre.data.isPrefixOf s.data

/-- Embedding of `resolve_input` (goodscraper.py lines 30-51).  The
`os.path.exists` collaborator is the abstract parameter `fileExists`. -/
def resolve_input (fileExists : String → Bool) (arg : String) : String :=
  if fileExists arg then arg
  else if isAllDigits arg then
    GOODREADS_BASE ++ "/review/list/" ++ arg ++ "?shelf=read"
  else if pyStartswith arg "http://" || pyStartswith arg "https://" then arg
  else arg

/-- Maximal runs of ASCII decimal digits in a character list, in order:
the model of `re.findall(r"\d+", text)`. -/
def digitRunsAux : List Char → List Char → List (List Char)
  | [], acc => if acc.isEmpty then [] else [acc.reverse]
  | c :: rest, acc =>
    if c.isDigit then digitRunsAux rest (c :: acc)
    else if acc.isEmpty then digitRunsAux rest []
    else acc.reverse :: digitRunsAux rest []

/-- Model of `re.findall(r"\d+", s)`. -/
def digitRuns (cs : List Char) : List (List Char) := digitRunsAux cs []

/-- Model of `text.replace(",", "")`. -/
def removeCommas (s : String) : String := ⟨s.data.filter (· ≠ ',')⟩

/-- Embedding of `extract_int_from_text` (goodscraper.py lines 124-133):
strip commas, take the FIRST digit run, convert to an integer; `None`
when the text is falsy or has no digits.  (The `int` call cannot fail on a
digit run, so the dead `except ValueError` branch is not represented.) -/
def extract_int_from_text (text : Option String) : Option Int :=
  match text with
  | none => none
  | some s =>
    if s = "" then none
    else
      match digitRuns (removeCommas s).data with
      | [] => none
      | r :: _ => some (natOfDigits r : Nat)

/-- Leftmost match of `re.search(r"(\d{4})", text)`: the earliest position
where four consecutive characters are all decimal digits, returning those
four characters. -/
def fourDigitSearch : List Char → Option (List Char)
  | a :: b :: c :: d :: rest =>
    if a.isDigit && b.isDigit && c.isDigit && d.isDigit then some [a, b, c, d]
    else fourDigitSearch (b :: c :: d :: rest)
  | _ => none

/-- Embedding of `extract_year_from_date` (goodscraper.py lines 136-149):
`re.search(r"(\d{4})", text)` takes the FIRST four-digit window; `None`
when the text is falsy or no window exists.  (The `int` call cannot fail
on four digits, so the dead `except ValueError` branch is not
represented.) -/
def extract_year_from_date (text : Option String) : Option Int :=
  match text with
  | none => none
  | some s =>
    if s = "" then none
    else
      match fourDigitSearch s.data with
      | none => none
      | some ds => some (natOfDigits ds : Nat)

/-! ### SHA-256 (the `hashlib.sha256(...).hexdigest()` collaborator)

Standard FIPS 180-4 SHA-256 over byte lists, with 32-bit words as `Nat`
reduced mod `2^32`.  Validated below on FIPS test vectors. -/

def M32 : Nat := 4294967296

def add32 (a b : Nat) : Nat := (a + b) % M32

def rotr32 (n x : Nat) : Nat :=
  Nat.lor (x >>> n) ((x <<< (32 - n)) % M32)

def xor3 (a b c : Nat) : Nat := Nat.xor (Nat.xor a b) c

def sumA32 (x : Nat) : Nat := xor3 (rotr32 2 x) (rotr32 13 x) (rotr32 22 x)

def sumE32 (x : Nat) : Nat := xor3 (rotr32 6 x) (rotr32 11 x) (rotr32 25 x)

def sigLo32 (x : Nat) : Nat := xor3 (rotr32 7 x) (rotr32 18 x) (x >>> 3)

def sigHi32 (x : Nat) : Nat := xor3 (rotr32 17 x) (rotr32 19 x) (x >>> 10)

def chOp (x y z : Nat) : Nat :=
  Nat.xor (Nat.land x y) (Nat.land (4294967295 - x) z)

def majOp (x y z : Nat) : Nat :=
  xor3 (Nat.land x y) (Nat.land x z) (Nat.land y z)

def K256 : List Nat :=
  [1116352408, 1899447441, 3049323471, 3921009573, 961987163,
   1508970993, 2453635748, 2870763221, 3624381080, 310598401,
   607225278, 1426881987, 1925078388, 2162078206, 2614888103,
   3248222580, 3835390401, 4022224774, 264347078, 604807628,
   770255983, 1249150122, 1555081692, 1996064986, 2554220882,
   2821834349, 2952996808, 3210313671, 3336571891, 3584528711,
   113926993, 338241895, 666307205, 773529912, 1294757372,
   1396182291, 1695183700, 1986661051, 2177026350, 2456956037,
   2730485921, 2820302411, 3259730800, 3345764771, 3516065817,
   3600352804, 4094571909, 275423344, 430227734, 506948616,
   659060556, 883997877, 958139571, 1322822218, 1537002063,
   1747873779, 1955562222, 2024104815, 2227730452, 2361852424,
   2428436474, 2756734187, 3204031479, 3329325298]

def H256 : List Nat :=
  [1779033703, 3144134277, 1013904242, 2773480762,
   1359893119, 2600822924, 528734635, 1541459225]

/-- Big-endian byte expansion: `bytesBE n v` is the `n` lowest bytes of `v`,
most significant first. -/
def bytesBE : Nat → Nat → List Nat
  | 0, _ => []
  | n + 1, v => bytesBE n (v >>> 8) ++ [v % 256]

/-- Group a byte list into big-endian 32-bit words. -/
def toWords : List Nat → List Nat
  | a :: b :: c :: d :: rest => (((a * 256 + b) * 256 + c) * 256 + d) :: toWords rest
  | _ => []

/-- Extend the 16-word message schedule by `n` further words. -/
def extendW (w : List Nat) : Nat → List Nat
  | 0 => w
  | n + 1 =>
    extendW
      (w ++ [add32
        (add32 (sigHi32 (w.getD (w.length - 2) 0)) (w.getD (w.length - 7) 0))
        (add32 (sigLo32 (w.getD (w.length - 15) 0)) (w.getD (w.length - 16) 0))]) n

/-- One SHA-256 compression round on the eight working variables. -/
def compressStep (st : List Nat) (kw : Nat × Nat) : List Nat :=
  match st with
  | [a, b, c, d, e, f, g, h] =>
    let t1 := add32 h (add32 (sumE32 e) (add32 (chOp e f g) (add32 kw.1 kw.2)))
    let t2 := add32 (sumA32 a) (majOp a b c)
    [add32 t1 t2, a, b, c, add32 d t1, e, f, g]
  | _ => st

/-- Process one 64-byte block into the running hash state. -/
def processBlock (h : List Nat) (block : List Nat) : List Nat :=
  let w := extendW (toWords block) 48
  let st := (K256.zip w).foldl compressStep h
  (h.zip st).map (fun p => add32 p.1 p.2)

/-- SHA-256 padding: `0x80`, zeros to 56 mod 64, then the 64-bit
big-endian bit length. -/
def padMessage (msg : List Nat) : List Nat :=
  let L := msg.length
  let k := (120 - ((L + 1) % 64)) % 64
  msg ++ [0x80] ++ List.replicate k 0 ++ bytesBE 8 (8 * L)

/-- Split a list into 64-byte chunks (fuel-indexed to stay structural). -/
def chunks64Aux : Nat → List Nat → List (List Nat)
  | 0, _ => []
  | _, [] => []
  | n + 1, l => l.take 64 :: chunks64Aux n (l.drop 64)

/-- SHA-256 digest (32 bytes) of a byte list. -/
def sha256Bytes (msg : List Nat) : List Nat :=
  let padded := padMessage msg
  let hs := (chunks64Aux padded.length padded).foldl processBlock H256
  hs.flatMap (bytesBE 4)

def hexDigitChar (n : Nat) : Char :=
  if n < 10 then Char.ofNat (48 + n) else Char.ofNat (87 + n)

/-- Lowercase hexadecimal rendering of a byte list (`hexdigest()`). -/
def bytesToHex (bs : List Nat) : String :=
  ⟨bs.flatMap (fun b => [hexDigitChar (b / 16), hexDigitChar (b % 16)])⟩

/-- Model of `hashlib.sha256(bytes).hexdigest()`. -/
def sha256Hex (msg : List Nat) : String := bytesToHex (sha256Bytes msg)

/-- UTF-8 encoding of one character. -/
def utf8Char (c : Char) : List Nat :=
  let n := c.toNat
  if n < 0x80 then [n]
  else if n < 0x800 then [0xC0 + n / 64, 0x80 + n % 64]
  else if n < 0x10000 then
    [0xE0 + n / 4096, 0x80 + (n / 64) % 64, 0x80 + n % 64]
  else
    [0xF0 + n / 262144, 0x80 + (n / 4096) % 64, 0x80 + (n / 64) % 64,
     0x80 + n % 64]

/-- Model of Python `s.encode("utf-8")`. -/
def utf8Encode (s : String) : List Nat := s.data.flatMap utf8Char

/-! ### IdentityHasher (`compute_key_hash`, goodscraper.py lines 152-164) -/

/-- The pre-hash key string of `compute_key_hash`:
`"|".join(p.strip() for p in [source or "", external_id or "", title or "", authors or ""])`.
For `Option String` fields Python `x or ""` is `Option.getD x ""`
(both `None` and `""` are falsy and map to `""`); for the always-string
fields `source`/`title` it is the identity on the values the caller
passes, so it is not represented separately. -/
def keyRaw (source : String) (external_id : Option String)
    (title : String) (authors : Option String) : String :=
  pyJoin "|"
    (([source, external_id.getD "", title, authors.getD ""]).map pyStrip)

/-- Embedding of `compute_key_hash` (goodscraper.py lines 152-164). -/
def compute_key_hash (source : String) (external_id : Option String)
    (title : String) (authors : Option String) : String :=
  sha256Hex (utf8Encode (keyRaw source external_id title authors))

/-- The key string as described by the SPEC's words (§4.4): normalize each
of the four inputs to a string (empty string when absent), trim
leading/trailing whitespace from each, and join with a single `|`
separator in the fixed order source, externalId, title, authors. -/
def keyStringSpec (source : String) (externalId : Option String)
    (title : String) (authors : Option String) : String :=
  pyStrip source ++ "|"
    ++ pyStrip (match externalId with | none => "" | some s => s) ++ "|"
    ++ pyStrip title ++ "|"
    ++ pyStrip (match authors with | none => "" | some s => s)

/-! ### ShelfPageParser (`parse_shelf`, goodscraper.py lines 167-254)

The BeautifulSoup document is abstracted to the list of `tr` elements in
document order.  Each `tr`/`td` carries its `class` attribute string; an
anchor carries its optional `href` and its rendered text; a cell carries
its first contained `img` (the only one `find` can return) and its
rendered text.  `get_text(strip=True)` (with or without a separator) is
modelled as `pyStrip` of the stored text. -/

/-- An `<a>` element: optional `href` attribute and rendered text. -/
structure ATag where
  href : Option String := none
  text : String := ""
deriving DecidableEq

/-- An `<img>` element: optional `src` attribute. -/
structure ImgTag where
  src : Option String := none
deriving DecidableEq

/-- A `<td>` element: class attribute, contained anchors in document
order, first contained image, and rendered text. -/
structure Td where
  classAttr : String
  links : List ATag := []
  img : Option ImgTag := none
  text : String := ""
deriving DecidableEq

/-- A `<tr>` element: class attribute and contained `td` cells. -/
structure Tr where
  classAttr : String
  cells : List Td
deriving DecidableEq

/-- A JSON-able field value of an emitted record: string, integer, or
Python `None`. -/
inductive JVal where
  | s (v : String)
  | i (v : Int)
  | null
deriving DecidableEq

/-- An emitted record: the ordered key/value pairs of the Python dict. -/
abbrev Record := List (String × JVal)

def jOptS : Option String → JVal
  | none => JVal.null
  | some v => JVal.s v

def jOptI : Option Int → JVal
  | none => JVal.null
  | some v => JVal.i v

/-- Split a character list on whitespace into nonempty tokens. -/
def splitWSAux : List Char → List Char → List String
  | [], acc => if acc.isEmpty then [] else [⟨acc.reverse⟩]
  | c :: rest, acc =>
    if pyWS c then
      if acc.isEmpty then splitWSAux rest []
      else (⟨acc.reverse⟩ : String) :: splitWSAux rest []
    else splitWSAux rest (c :: acc)

/-- The whitespace-separated class tokens of a `class` attribute. -/
def classList (s : String) : List String :=
  splitWSAux s.data []

/-- Model of `row.find("td", class_=cls)` for a multi-word `cls`:
BeautifulSoup matches a multi-word class string against the exact full
attribute value, and returns the first matching cell. -/
def findTdExact (tr : Tr) (cls : String) : Option Td :=
  tr.cells.find? (fun td => td.classAttr == cls)

/-- Model of `title_td.find("a", href=True)`: the first anchor of the
title cell carrying an `href` attribute; `none` when the title cell or
such an anchor is missing (the row is then skipped). -/
def titleLinkOf (tr : Tr) : Option ATag :=
  (findTdExact tr "field title").bind (fun td => td.links.find? (fun a => a.href.isSome))

/-- Author extraction (goodscraper.py lines 197-204): join the stripped
texts of all anchors of the author cell with `", "` when any anchor
exists, else the cell's stripped text, with `""` demoted to `None`;
`None` when the cell is absent. -/
def extractAuthors (tr : Tr) : Option String :=
  match findTdExact tr "field author" with
  | none => none
  | some td =>
    if td.links.isEmpty then
      let t := pyStrip td.text
      if t = "" then none else some t
    else some (pyJoin ", " (td.links.map (fun a => pyStrip a.text)))

/-- Cover extraction (goodscraper.py lines 207-212): the `src` of the
first image of the cover cell; Python `img.get("src")` is falsy for a
missing or empty `src`, so `src=""` yields `None`. -/
def extractCover (tr : Tr) : Option String :=
  match findTdExact tr "field cover" with
  | none => none
  | some td =>
    match td.img with
    | none => none
    | some img =>
      match img.src with
      | none => none
      | some s => if s = "" then none else some s

/-- Page-count extraction (goodscraper.py lines 215-219). -/
def extractPageCount (tr : Tr) : Option Int :=
  match findTdExact tr "field num_pages" with
  | none => none
  | some td => extract_int_from_text (some (pyStrip td.text))

/-- Published-year extraction (goodscraper.py lines 222-226).  The value
is computed by the source but not placed in the emitted dict (that line
is commented out), so `rowRecord` below does not use it. -/
def extractPublishedYear (tr : Tr) : Option Int :=
  match findTdExact tr "field date_pub" with
  | none => none
  | some td => extract_year_from_date (some (pyStrip td.text))

/-- The record built from one qualifying row (goodscraper.py lines
179-252), or `none` when the row lacks a title cell or a title link.
The dict literal `book_obj` at lines 238-250 contains exactly the keys
`source`, `title`, `authors`, `pageCount`, `coverUrl`, in that order:
the entries for `keyHash`, `externalId`, `publishedYear`, `publisher`,
`categories` and `goodreadsUrl` are commented out in the source, and the
computed `key_hash`/`external_id`/`published_year`/`book_url` values are
therefore never emitted. -/
def rowRecord (tr : Tr) : Option Record :=
  match titleLinkOf tr with
  | none => none
  | some a =>
    some
      [("source", JVal.s "OTHER"),
       ("title", JVal.s (pyStrip a.text)),
       ("authors", jOptS (extractAuthors tr)),
       ("pageCount", jOptI (extractPageCount tr)),
       ("coverUrl", jOptS (extractCover tr))]

set_option linter.unusedVariables false in
/-- Embedding of `parse_shelf` (goodscraper.py lines 167-254):
`soup.find_all("tr", class_="bookalike")` keeps the rows whose class
tokens contain `bookalike`; each row yields at most one record.  The
`shelf_url` argument only feeds the unemitted `book_url` value, so the
result does not depend on it. -/
def parse_shelf (doc : List Tr) (shelf_url : Option String := none) : List Record :=
  (doc.filter (fun tr => (classList tr.classAttr).contains "bookalike")).filterMap rowRecord

/-- A row that produces a record: a `bookalike` row whose title cell has
an anchor with an `href`. -/
def wellFormedRow (tr : Tr) : Bool :=
  (classList tr.classAttr).contains "bookalike" && (titleLinkOf tr).isSome

/-! ### PaginationController (`main`, goodscraper.py lines 276-310)

The query string is modelled at the key/value level: the list produced by
`parse_qsl(parsed.query)` (in order, duplicates kept) stands for
`initialUrl`'s query, and the association list handed to `urlencode`
stands for the rebuilt query.  Percent-encoding, scheme/netloc/path (left
untouched by `parsed._replace(query=...)`), and HTTP transport are
collaborator concerns outside the embedding; the `fetch`/`parse_shelf`
composite for the rebuilt URL of page `p` is abstracted as `fetch p`,
sound because the rebuilt URL differs across iterations only in `page`. -/

/-- First-match association lookup, the model of `d[k]`/`k in d` checks. -/
def lookupS (k : String) : List (String × String) → Option String
  | [] => none
  | p :: rest => if p.1 = k then some p.2 else lookupS k rest

/-- Model of Python dict assignment `d[k] = v`: update the value in place
when the key is present (keeping its position), else append. -/
def pyDictInsert (d : List (String × String)) (k v : String) :
    List (String × String) :=
  match lookupS k d with
  | some _ => d.map (fun p => if p.1 = k then (p.1, v) else p)
  | none => d ++ [(k, v)]

/-- Model of `dict(parse_qsl(query))`: fold the key/value pairs into a
dict, later occurrences of a key overwriting earlier ones. -/
def pyDict (l : List (String × String)) : List (String × String) :=
  l.foldl (fun d p => pyDictInsert d p.1 p.2) []

/-- Model of `d.setdefault(k, v)`'s effect on the dict. -/
def setdefaultD (d : List (String × String)) (k v : String) :
    List (String × String) :=
  match lookupS k d with
  | some _ => d
  | none => d ++ [(k, v)]

/-- The LAST value bound to `k` in a raw query pair list, the reference
point for what `dict(parse_qsl(...))` retains. -/
def lastLookup (l : List (String × String)) (k : String) : Option String :=
  lookupS k l.reverse

/-- The rebuilt query of one loop iteration (goodscraper.py lines
281-289): `qs = dict(parse_qsl(parsed.query)); qs.setdefault("per_page",
"10"); qs["page"] = str(page)`. -/
def rebuildQuery (qsl : List (String × String)) (page : Nat) :
    List (String × String) :=
  pyDictInsert (setdefaultD (pyDict qsl) "per_page" "10") "page" (toString page)

/-- Adjacent-underscore check for Python integer literals. -/
def noDoubleU : List Char → Bool
  | '_' :: '_' :: _ => false
  | _ :: rest => noDoubleU rest
  | [] => true

/-- Digit body of a Python integer literal: nonempty, all digits or
underscores, starting and ending with a digit, no doubled underscore. -/
def validUnderscoreDigits (cs : List Char) : Bool :=
  (match cs.head? with | some c => c.isDigit | none => false)
    && (match cs.getLast? with | some c => c.isDigit | none => false)
    && cs.all (fun c => c.isDigit || c = '_')
    && noDoubleU cs

def pyIntDigits (cs : List Char) : Option Nat :=
  if validUnderscoreDigits cs then some (natOfDigits (cs.filter (· ≠ '_')))
  else none

def pyIntCore : List Char → Option Int
  | '+' :: rest => (pyIntDigits rest).map Int.ofNat
  | '-' :: rest => (pyIntDigits rest).map (fun n => -(n : Int))
  | cs => (pyIntDigits cs).map Int.ofNat

/-- Model of Python `int(s)` on a string (ASCII): strip whitespace, allow
an optional sign and underscore-grouped digits; `none` models the
`ValueError` caught at goodscraper.py lines 300-303. -/
def pyInt (s : String) : Option Int :=
  pyIntCore (pyStrip s).data

/-- The per-page value one loop iteration works with: `qs["per_page"]`
after `qs.setdefault("per_page", "10")`, put through `int` with
`ValueError` giving `none` (goodscraper.py lines 286, 300-303). -/
def perPageOf (qsl : List (String × String)) : Option Int :=
  (lookupS "per_page" (setdefaultD (pyDict qsl) "per_page" "10")).bind pyInt

/-- Embedding of the `while True` pagination loop (goodscraper.py lines
279-308), fuel-indexed: `none` means the fuel ran out before the loop
stopped.  State: current `page`, accumulated records `acc`, number of
fetches issued `fc`.  `fetch p` abstracts `parse_shelf(load_html(page_url))`
for the URL rebuilt with `page=p`. -/
def shelfLoop {α : Type} (qsl : List (String × String)) (fetch : Nat → List α) :
    Nat → Nat → List α → Nat → Option (List α × Nat)
  | 0, _, _, _ => none
  | fuel + 1, page, acc, fc =>
    let pageBooks := fetch page
    if pageBooks.isEmpty then some (acc, fc + 1)
    else
      match perPageOf qsl with
      | none => some (acc ++ pageBooks, fc + 1)
      | some pp =>
        if (pageBooks.length : Int) < pp then some (acc ++ pageBooks, fc + 1)
        else shelfLoop qsl fetch fuel (page + 1) (acc ++ pageBooks) (fc + 1)

/-- The whole pagination run: page counter starts at 1, accumulator
empty, no fetches issued yet (goodscraper.py lines 276-310). -/
def collect {α : Type} (qsl : List (String × String)) (fetch : Nat → List α)
    (fuel : Nat) : Option (List α × Nat) :=
  shelfLoop qsl fetch fuel 1 [] 0

/-! ### Auxiliary record accessors used only in statements -/

/-- First-match lookup in an emitted record. -/
def lookupJ (k : String) : Record → Option JVal
  | [] => none
  | p :: rest => if p.1 = k then some p.2 else lookupJ k rest

/-- Whether an optional field value is a (non-null) string. -/
def isStringVal : Option JVal → Bool
  | some (JVal.s _) => true
  | _ => false

/-! ### Helper lemmas -/

/-- FIPS 180-4 test vector: SHA-256 of the empty message. -/
theorem sha256Hex_empty_vector :
    sha256Hex [] = "e3b0c44298fc1c149afbf4c8996fb92427ae41e4649b934ca495991b7852b855" := by
  decide

/-- FIPS 180-4 test vector: SHA-256 of `"abc"`. -/
theorem sha256Hex_abc_vector :
    sha256Hex (utf8Encode "abc")
      = "ba7816bf8f01cfea414140de5dae2223b00361a396177a9cb410ff61f20015ad" := by
  decide

/-- The code's pre-hash string coincides with the procedure the spec
describes field by field. -/
theorem keyRaw_eq_keyStringSpec (s : String) (e : Option String)
    (t : String) (a : Option String) :
    keyRaw s e t a = keyStringSpec s e t a := by
  cases e <;> cases a <;>
    simp [keyRaw, keyStringSpec, pyJoin, String.append_assoc]

/-! ### Concrete HTML rows used by witnesses and counterexamples -/

/-- A fully well-formed shelf row. -/
def rowA : Tr :=
  { classAttr := "bookalike review",
    cells :=
      [{ classAttr := "field title",
         links := [{ href := some "/book/show/364549.X", text := " Dune " }],
         text := "Dune" },
       { classAttr := "field author",
         links := [{ href := some "/author/1", text := "Frank Herbert" }],
         text := "Frank Herbert" },
       { classAttr := "field num_pages", text := " 412 pages " },
       { classAttr := "field cover",
         img := some { src := some "https://img/x.jpg" } }] }

/-- The record `parse_shelf` emits for `rowA`. -/
def recA : Record :=
  [("source", JVal.s "OTHER"),
   ("title", JVal.s "Dune"),
   ("authors", JVal.s "Frank Herbert"),
   ("pageCount", JVal.i 412),
   ("coverUrl", JVal.s "https://img/x.jpg")]

/-- A non-entry row (no `bookalike` class). -/
def rowHdr : Tr := { classAttr := "header", cells := [] }

/-- A `bookalike` row whose title link exists but renders no visible
text. -/
def rowT : Tr :=
  { classAttr := "bookalike",
    cells :=
      [{ classAttr := "field title",
         links := [{ href := some "/book/show/1.X", text := "  " }],
         text := "  " }] }

/-- A `bookalike` row whose author cell contains one hyperlink with
whitespace-only visible text. -/
def rowE : Tr :=
  { classAttr := "bookalike",
    cells :=
      [{ classAttr := "field title",
         links := [{ href := some "/book/show/2.Y", text := "Title" }],
         text := "Title" },
       { classAttr := "field author",
         links := [{ href := some "/author/2", text := " " }],
         text := " " }] }

/-- A record is produced exactly by a title link; its full shape. -/
theorem record_shape_of_mem (doc : List Tr) (url : Option String) (r : Record)
    (hr : r ∈ parse_shelf doc url) :
    ∃ tr a, tr ∈ doc ∧ titleLinkOf tr = some a
      ∧ r = [("source", JVal.s "OTHER"),
             ("title", JVal.s (pyStrip a.text)),
             ("authors", jOptS (extractAuthors tr)),
             ("pageCount", jOptI (extractPageCount tr)),
             ("coverUrl", jOptS (extractCover tr))] := by
  obtain ⟨tr, htr, hrec⟩ := List.mem_filterMap.mp hr
  refine ⟨tr, ?_⟩
  have htrdoc : tr ∈ doc := (List.mem_filter.mp htr).1
  unfold rowRecord at hrec
  cases h : titleLinkOf tr with
  | none => rw [h] at hrec; cases hrec
  | some a =>
    rw [h] at hrec
    exact ⟨a, htrdoc, rfl, (Option.some.injEq _ _).mp hrec |>.symm⟩

/-- A row yields a record exactly when it has a title link. -/
theorem rowRecord_isSome (tr : Tr) :
    (rowRecord tr).isSome = (titleLinkOf tr).isSome := by
  unfold rowRecord
  cases titleLinkOf tr <;> rfl

/-- Length of `filterMap` as the count of elements the function keeps. -/
theorem length_filterMap_isSome {α β : Type} (f : α → Option β) (l : List α) :
    (l.filterMap f).length = (l.filter (fun x => (f x).isSome)).length := by
  induction l with
  | nil => rfl
  | cons x xs ih =>
    cases h : f x <;>
      simp [List.filterMap_cons, h, List.filter_cons, ih]

/-! ### Claim C1 -/

/-- C1: the spec (and the function's own docstring) say the published
year is the LAST 4-digit run of the date cell, but `re.search` takes the
FIRST match: on `"1999 2005"` the code returns `1999`, not `2005`.  The
single-run and no-run cases behave as described. -/
theorem C1_year_extraction_takes_first_run :
    extract_year_from_date (some "1999 2005") = some 1999
      ∧ extract_year_from_date (some "Mar 18, 2025") = some 2025
      ∧ extract_year_from_date (some "no year here") = none
      ∧ extract_year_from_date none = none := by
  decide

/-! ### Claim C9 -/

/-- C9: `resolve_input` applies its four classification rules in order
with first match winning: an existing path is returned unchanged;
otherwise an all-digits string becomes the canonical shelf URL
`<base>/review/list/<id>?shelf=read`; otherwise an `http(s)` URL is
returned unchanged; otherwise the input is returned unchanged. -/
theorem C9_resolve_input_rules (fileExists : String → Bool) (arg : String) :
    (fileExists arg = true → resolve_input fileExists arg = arg)
      ∧ (fileExists arg = false → isAllDigits arg = true →
          resolve_input fileExists arg
            = GOODREADS_BASE ++ "/review/list/" ++ arg ++ "?shelf=read")
      ∧ (fileExists arg = false → isAllDigits arg = false →
          (pyStartswith arg "http://" || pyStartswith arg "https://") = true →
          resolve_input fileExists arg = arg)
      ∧ (fileExists arg = false → isAllDigits arg = false →
          resolve_input fileExists arg = arg) := by
  refine ⟨fun h1 => ?_, fun h1 h2 => ?_, fun h1 h2 h3 => ?_, fun h1 h2 => ?_⟩
  · simp [resolve_input, h1]
  · simp [resolve_input, h1, h2]
  · simp only [resolve_input, h1, h2, Bool.false_eq_true, if_false]
    split <;> rfl
  · simp only [resolve_input, h1, h2, Bool.false_eq_true, if_false]
    split <;> rfl

/-- Witness for C9: the spec's three resolver scenarios. -/
theorem C9_resolve_input_rules_witness :
    resolve_input (fun _ => false) "162248230"
        = "https://www.goodreads.com/review/list/162248230?shelf=read"
      ∧ resolve_input (fun _ => false) "https://example.com/x"
          = "https://example.com/x"
      ∧ resolve_input (fun p => p = "shelf.html") "shelf.html" = "shelf.html" := by
  refine ⟨?_, ?_, ?_⟩
  · exact ((C9_resolve_input_rules (fun _ => false) "162248230").2.1 rfl
      (by decide)).trans (by decide)
  · exact (C9_resolve_input_rules (fun _ => false) "https://example.com/x").2.2.1
      rfl (by decide) (by decide)
  · exact (C9_resolve_input_rules (fun p => p = "shelf.html") "shelf.html").1
      (by decide)

/-! ### Claim C4 -/

/-- C4: `compute_key_hash` equals the lowercase-hex SHA-256 of the UTF-8
encoding of the string built exactly as the spec describes (absent fields
to `""`, each field trimmed, joined with single `|` in the order source,
externalId, title, authors); consequently quadruples equal after trimming
yield the same digest. -/
theorem C4_key_hash_procedure :
    (∀ (s : String) (e : Option String) (t : String) (a : Option String),
        compute_key_hash s e t a = sha256Hex (utf8Encode (keyStringSpec s e t a)))
      ∧ (∀ (s1 : String) (e1 : Option String) (t1 : String) (a1 : Option String)
          (s2 : String) (e2 : Option String) (t2 : String) (a2 : Option String),
          pyStrip s1 = pyStrip s2 →
          pyStrip (e1.getD "") = pyStrip (e2.getD "") →
          pyStrip t1 = pyStrip t2 →
          pyStrip (a1.getD "") = pyStrip (a2.getD "") →
          compute_key_hash s1 e1 t1 a1 = compute_key_hash s2 e2 t2 a2) := by
  constructor
  · intro s e t a
    exact congrArg (fun r => sha256Hex (utf8Encode r)) (keyRaw_eq_keyStringSpec s e t a)
  · intro s1 e1 t1 a1 s2 e2 t2 a2 hs he ht ha
    have hraw : keyRaw s1 e1 t1 a1 = keyRaw s2 e2 t2 a2 := by
      simp only [keyRaw, List.map]
      rw [hs, he, ht, ha]
    exact congrArg (fun r => sha256Hex (utf8Encode r)) hraw

/-- Witness for C4: two concrete quadruples equal after trimming hash
identically, and the hash of one concrete quadruple is the digest of its
spec-described key string. -/
theorem C4_key_hash_procedure_witness :
    compute_key_hash " OTHER" (some "364549") "Dune " none
        = compute_key_hash "OTHER" (some " 364549 ") "Dune" (some "")
      ∧ compute_key_hash "OTHER" none "Dune" none
          = sha256Hex (utf8Encode (keyStringSpec "OTHER" none "Dune" none)) :=
  ⟨C4_key_hash_procedure.2 " OTHER" (some "364549") "Dune " none
      "OTHER" (some " 364549 ") "Dune" (some "")
      (by decide) (by decide) (by decide) (by decide),
   C4_key_hash_procedure.1 "OTHER" none "Dune" none⟩

/-! ### Claim C3 -/

/-- C3 counterexample: the quadruples `("a|b", "c", "x", None)` and
`("a", "b|c", "x", None)` are distinct after trimming (their sources
differ), yet their `|`-joined key strings — and hence their hashes — are
identical, because `|` inside a field is indistinguishable from the
separator. -/
theorem C3_key_hash_collision :
    pyStrip "a|b" ≠ pyStrip "a"
      ∧ compute_key_hash "a|b" (some "c") "x" none
          = compute_key_hash "a" (some "b|c") "x" none :=
  ⟨by decide,
   congrArg (fun r => sha256Hex (utf8Encode r))
     (by decide : keyRaw "a|b" (some "c") "x" none
        = keyRaw "a" (some "b|c") "x" none)⟩

/-- Splitting a `sep`-separated concatenation is unambiguous when the
left parts do not contain the separator. -/
theorem sep_append_inj (sep : Char) :
    ∀ (l1 l2 r1 r2 : List Char), sep ∉ l1 → sep ∉ l2 →
      l1 ++ sep :: r1 = l2 ++ sep :: r2 → l1 = l2 ∧ r1 = r2 := by
  intro l1
  induction l1 with
  | nil =>
    intro l2 r1 r2 _ h2 h
    cases l2 with
    | nil => simpa using h
    | cons d l2 =>
      simp only [List.nil_append, List.cons_append, List.cons.injEq] at h
      exact absurd (h.1 ▸ List.mem_cons_self d l2) h2
  | cons c l1 ih =>
    intro l2 r1 r2 h1 h2 h
    cases l2 with
    | nil =>
      simp only [List.cons_append, List.nil_append, List.cons.injEq] at h
      exact absurd (h.1 ▸ List.mem_cons_self c l1) h1
    | cons d l2 =>
      simp only [List.cons_append, List.cons.injEq] at h
      obtain ⟨rfl, htail⟩ := h
      have hrec := ih l2 r1 r2 (fun hm => h1 (List.mem_cons_of_mem _ hm))
        (fun hm => h2 (List.mem_cons_of_mem _ hm)) htail
      exact ⟨by rw [hrec.1], hrec.2⟩

/-- C3 amended: the pre-hash key string `keyRaw` is injective on trimmed
quadruples none of whose trimmed fields contains the separator `|`
(equal key strings force all four trimmed fields to agree); hence on
such quadruples a hash collision would require a SHA-256 collision of
distinct key strings.  The counterexample above shows the restriction to
`|`-free fields is necessary. -/
theorem C3_keyRaw_injective_pipe_free
    (s1 : String) (e1 : Option String) (t1 : String) (a1 : Option String)
    (s2 : String) (e2 : Option String) (t2 : String) (a2 : Option String)
    (hs1 : '|' ∉ (pyStrip s1).data) (he1 : '|' ∉ (pyStrip (e1.getD "")).data)
    (ht1 : '|' ∉ (pyStrip t1).data)
    (hs2 : '|' ∉ (pyStrip s2).data) (he2 : '|' ∉ (pyStrip (e2.getD "")).data)
    (ht2 : '|' ∉ (pyStrip t2).data)
    (hk : keyRaw s1 e1 t1 a1 = keyRaw s2 e2 t2 a2) :
    pyStrip s1 = pyStrip s2 ∧ pyStrip (e1.getD "") = pyStrip (e2.getD "")
      ∧ pyStrip t1 = pyStrip t2 ∧ pyStrip (a1.getD "") = pyStrip (a2.getD "") := by
  have hdata := congrArg String.data hk
  simp only [keyRaw, List.map, pyJoin, String.data_append, List.append_assoc] at hdata
  have hplain :
      (pyStrip s1).data ++ '|' :: ((pyStrip (e1.getD "")).data
          ++ '|' :: ((pyStrip t1).data ++ '|' :: (pyStrip (a1.getD "")).data))
        = (pyStrip s2).data ++ '|' :: ((pyStrip (e2.getD "")).data
          ++ '|' :: ((pyStrip t2).data ++ '|' :: (pyStrip (a2.getD "")).data)) := by
    simpa using hdata
  obtain ⟨hfs, hrest1⟩ := sep_append_inj '|' _ _ _ _ hs1 hs2 hplain
  obtain ⟨hfe, hrest2⟩ := sep_append_inj '|' _ _ _ _ he1 he2 hrest1
  obtain ⟨hft, hfa⟩ := sep_append_inj '|' _ _ _ _ ht1 ht2 hrest2
  exact ⟨String.ext hfs, String.ext hfe, String.ext hft, String.ext hfa⟩

/-- Witness for C3's amended statement: concrete pipe-free quadruples
with equal key strings have all trimmed fields equal. -/
theorem C3_keyRaw_injective_pipe_free_witness :
    pyStrip " a" = pyStrip "a " ∧ pyStrip ((some "b").getD "") = pyStrip ((some " b").getD "")
      ∧ pyStrip "c" = pyStrip " c " ∧ pyStrip ((none : Option String).getD "") = pyStrip ((some " ").getD "") :=
  C3_keyRaw_injective_pipe_free " a" (some "b") "c" none "a " (some " b") " c " (some " ")
    (by decide) (by decide) (by decide)
    (by decide) (by decide) (by decide) (by decide)

/-! ### Claim C2 -/

/-- C2 counterexample: a fully well-formed row yields a record whose key
set is exactly `source, title, authors, pageCount, coverUrl` — the
`keyHash`, `externalId` and `publishedYear` fields claimed by the data
model are not present (their dict entries are commented out in the
source). -/
theorem C2_emitted_record_missing_fields :
    (parse_shelf [rowA] none).map (fun r => r.map Prod.fst)
        = [["source", "title", "authors", "pageCount", "coverUrl"]]
      ∧ "keyHash" ∉ ["source", "title", "authors", "pageCount", "coverUrl"]
      ∧ "externalId" ∉ ["source", "title", "authors", "pageCount", "coverUrl"]
      ∧ "publishedYear" ∉ ["source", "title", "authors", "pageCount", "coverUrl"] := by
  decide

/-- C2 amended: every record emitted by `parse_shelf` carries exactly
the fields `source, title, authors, pageCount, coverUrl` in that order,
optional fields present as explicit null when absent (the values are
`jOptS`/`jOptI` of the extracted options, so an absent value renders as
`null`, never as a missing key); `source` is always the fixed fallback
`"OTHER"` and `title` is always a string.  `keyHash`, `externalId` and
`publishedYear` are computed by the code but never emitted. -/
theorem C2_emitted_record_shape (doc : List Tr) (url : Option String)
    (r : Record) (hr : r ∈ parse_shelf doc url) :
    r.map Prod.fst = ["source", "title", "authors", "pageCount", "coverUrl"]
      ∧ lookupJ "source" r = some (JVal.s "OTHER")
      ∧ isStringVal (lookupJ "title" r) = true := by
  obtain ⟨tr, a, -, -, rfl⟩ := record_shape_of_mem doc url r hr
  refine ⟨rfl, ?_, ?_⟩ <;> simp [lookupJ, isStringVal]

/-- Witness for C2's amended statement at the concrete row `rowA`. -/
theorem C2_emitted_record_shape_witness :
    recA.map Prod.fst = ["source", "title", "authors", "pageCount", "coverUrl"]
      ∧ lookupJ "source" recA = some (JVal.s "OTHER")
      ∧ isStringVal (lookupJ "title" recA) = true :=
  C2_emitted_record_shape [rowA] none recA (by decide)

/-! ### Claim C7 -/

/-- C7 counterexample: a `bookalike` row whose title link has
whitespace-only visible text is NOT dropped — it yields a record whose
`title` is the empty string, contradicting the "non-empty title" part of
the claim. -/
theorem C7_empty_title_emitted :
    (parse_shelf [rowT] none).map (lookupJ "title") = [some (JVal.s "")]
      ∧ (parse_shelf [rowT] none).length = 1 := by
  decide

/-- C7 amended: parsing yields exactly one record per `bookalike` row
whose title cell has a link (rows lacking a title cell or title link
produce no record), and every emitted record has a non-null string
`title` — possibly empty. -/
theorem C7_record_per_wellformed_row (doc : List Tr) (url : Option String) :
    (parse_shelf doc url).length = (doc.filter wellFormedRow).length
      ∧ ∀ r ∈ parse_shelf doc url, isStringVal (lookupJ "title" r) = true := by
  constructor
  · unfold parse_shelf
    rw [length_filterMap_isSome, List.filter_filter]
    simp only [rowRecord_isSome]
    have hpred : ∀ tr : Tr,
        ((titleLinkOf tr).isSome && (classList tr.classAttr).contains "bookalike")
          = wellFormedRow tr := by
      intro tr
      simp [wellFormedRow, Bool.and_comm]
    simp only [hpred]
  · intro r hr
    obtain ⟨tr, a, -, -, rfl⟩ := record_shape_of_mem doc url r hr
    simp [lookupJ, isStringVal]

/-- Witness for C7 on a concrete two-row page with one well-formed row
and one non-entry row. -/
theorem C7_record_per_wellformed_row_witness :
    (parse_shelf [rowA, rowHdr] none).length
        = ([rowA, rowHdr].filter wellFormedRow).length
      ∧ isStringVal (lookupJ "title" recA) = true :=
  ⟨(C7_record_per_wellformed_row [rowA, rowHdr] none).1,
   (C7_record_per_wellformed_row [rowA, rowHdr] none).2 recA (by decide)⟩

/-! ### Claim C8 -/

/-- C8 counterexample: an author cell containing one hyperlink with
empty visible text yields `authors` equal to the empty STRING, not
null — the link branch never falls back to null. -/
theorem C8_empty_link_text_not_null :
    (parse_shelf [rowE] none).map (lookupJ "authors") = [some (JVal.s "")]
      ∧ JVal.s "" ≠ JVal.null := by
  decide

/-- C8 amended: `authors` is the `", "`-join of the visible texts of the
author cell's hyperlinks whenever at least one hyperlink exists (even
when that join is the empty string), else the cell's trimmed plain text
with `""` demoted to null; it is null when the cell is absent; and every
emitted record's `authors` field is exactly this extraction for its
row. -/
theorem C8_authors_extraction :
    (∀ tr : Tr, findTdExact tr "field author" = none → extractAuthors tr = none)
      ∧ (∀ (tr : Tr) (td : Td), findTdExact tr "field author" = some td →
          td.links ≠ [] →
          extractAuthors tr
            = some (pyJoin ", " (td.links.map (fun a => pyStrip a.text))))
      ∧ (∀ (tr : Tr) (td : Td), findTdExact tr "field author" = some td →
          td.links = [] →
          extractAuthors tr
            = if pyStrip td.text = "" then none else some (pyStrip td.text))
      ∧ (∀ (doc : List Tr) (url : Option String) (r : Record),
          r ∈ parse_shelf doc url →
          ∃ tr, tr ∈ doc ∧ lookupJ "authors" r = some (jOptS (extractAuthors tr))) := by
  refine ⟨?_, ?_, ?_, ?_⟩
  · intro tr h
    unfold extractAuthors
    rw [h]
  · intro tr td h hl
    unfold extractAuthors
    rw [h]
    simp [List.isEmpty_iff, hl]
  · intro tr td h hl
    unfold extractAuthors
    rw [h]
    simp [List.isEmpty_iff, hl]
  · intro doc url r hr
    obtain ⟨tr, a, htr, -, rfl⟩ := record_shape_of_mem doc url r hr
    exact ⟨tr, htr, by simp [lookupJ]⟩

/-- Witness for C8: the three extraction modes at concrete rows, and the
record-level connection at `rowA`. -/
theorem C8_authors_extraction_witness :
    extractAuthors rowE = some ""
      ∧ extractAuthors rowHdr = none
      ∧ ∃ tr, tr ∈ [rowA] ∧ lookupJ "authors" recA = some (jOptS (extractAuthors tr)) :=
  ⟨C8_authors_extraction.2.1 rowE
      { classAttr := "field author",
        links := [{ href := some "/author/2", text := " " }], text := " " }
      (by decide) (by decide),
   C8_authors_extraction.1 rowHdr (by decide),
   C8_authors_extraction.2.2.2 [rowA] none recA (by decide)⟩

/-! ### Association-list lemmas for the query rebuild -/

/-- Updating the value stored under `k0` leaves lookups of other keys
unchanged (the update keeps every entry's key). -/
theorem lookupS_map_update_ne (d : List (String × String)) (k0 v0 k : String)
    (hne : k0 ≠ k) :
    lookupS k (d.map (fun p => if p.1 = k0 then (p.1, v0) else p))
      = lookupS k d := by
  induction d with
  | nil => rfl
  | cons p rest ih =>
    by_cases h : p.1 = k0
    · have hk : p.1 ≠ k := fun hk => hne (h ▸ hk)
      simp [lookupS, h, hk, ih, hne]
    · by_cases hk : p.1 = k <;> simp [lookupS, h, hk, ih, hne.symm]

/-- Updating the value stored under a present key makes its lookup
return the new value. -/
theorem lookupS_map_update_self (d : List (String × String)) (k0 v0 w : String)
    (h : lookupS k0 d = some w) :
    lookupS k0 (d.map (fun p => if p.1 = k0 then (p.1, v0) else p))
      = some v0 := by
  induction d with
  | nil => cases h
  | cons p rest ih =>
    by_cases hp : p.1 = k0
    · simp [lookupS, hp]
    · rw [lookupS, if_neg hp] at h
      simp [lookupS, hp, ih h]

/-- Appending a binding for an absent key: lookups see the new binding
for that key and are otherwise unchanged. -/
theorem lookupS_append_absent (d : List (String × String)) (k0 v0 k : String)
    (h : lookupS k0 d = none) :
    lookupS k (d ++ [(k0, v0)])
      = if k0 = k then some v0 else lookupS k d := by
  induction d with
  | nil => simp [lookupS]
  | cons p rest ih =>
    have hp : p.1 ≠ k0 := by
      intro hpk
      rw [lookupS, if_pos hpk] at h
      cases h
    rw [lookupS, if_neg hp] at h
    by_cases hk : p.1 = k
    · have hne : k0 ≠ k := fun he => hp (by rw [hk, he])
      simp [lookupS, hk, hne]
    · simp [lookupS, hk, ih h]

/-- Lookup after a dict store `d[k0] = v0`. -/
theorem lookupS_insert (d : List (String × String)) (k0 v0 k : String) :
    lookupS k (pyDictInsert d k0 v0)
      = if k0 = k then some v0 else lookupS k d := by
  unfold pyDictInsert
  cases h : lookupS k0 d with
  | none => exact lookupS_append_absent d k0 v0 k h
  | some w =>
    rcases eq_or_ne k0 k with rfl | hne
    · rw [if_pos rfl]
      exact lookupS_map_update_self d k0 v0 w h
    · rw [if_neg hne]
      exact lookupS_map_update_ne d k0 v0 k hne

/-- Lookup after `d.setdefault(k0, v0)`. -/
theorem lookupS_setdefault (d : List (String × String)) (k0 v0 k : String) :
    lookupS k (setdefaultD d k0 v0)
      = if k0 = k then some ((lookupS k0 d).getD v0) else lookupS k d := by
  unfold setdefaultD
  cases h : lookupS k0 d with
  | none =>
    rw [lookupS_append_absent d k0 v0 k h]
    rcases eq_or_ne k0 k with rfl | hne
    · rw [if_pos rfl, if_pos rfl]
      rfl
    · rw [if_neg hne, if_neg hne]
  | some w =>
    rcases eq_or_ne k0 k with rfl | hne
    · rw [if_pos rfl, h]
      rfl
    · rw [if_neg hne]

/-- `dict` construction over a snoc: the last pair is stored last. -/
theorem pyDict_append_single (l : List (String × String)) (x : String × String) :
    pyDict (l ++ [x]) = pyDictInsert (pyDict l) x.1 x.2 := by
  simp [pyDict, List.foldl_append]

/-- Lookup in `dict(parse_qsl(q))` returns the LAST value bound to the
key in the raw pair list. -/
theorem lookupS_pyDict (l : List (String × String)) (k : String) :
    lookupS k (pyDict l) = lastLookup l k := by
  induction l using List.reverseRecOn with
  | nil => rfl
  | append_singleton l x ih =>
    rw [pyDict_append_single, lookupS_insert, lastLookup, List.reverse_append]
    simp only [List.reverse_singleton, List.singleton_append, lookupS]
    rw [ih, lastLookup]
    rcases eq_or_ne x.1 k with he | hne
    · rw [if_pos he, if_pos he]
    · rw [if_neg hne, if_neg hne]
      rfl

/-- A key is absent from an association list iff its lookup fails. -/
theorem lookupS_eq_none_iff (k : String) (d : List (String × String)) :
    lookupS k d = none ↔ k ∉ d.map Prod.fst := by
  induction d with
  | nil => simp [lookupS]
  | cons p rest ih =>
    by_cases h : p.1 = k <;> simp [lookupS, h, ih, Ne.symm, eq_comm]

/-- Key list after a store on a present key: unchanged. -/
theorem keys_insert_present (d : List (String × String)) (k0 v0 w : String)
    (h : lookupS k0 d = some w) :
    (pyDictInsert d k0 v0).map Prod.fst = d.map Prod.fst := by
  unfold pyDictInsert
  rw [h, List.map_map]
  have hf : (Prod.fst ∘ fun p : String × String =>
      if p.1 = k0 then (p.1, v0) else p) = Prod.fst := by
    funext p
    by_cases hp : p.1 = k0 <;> simp [hp]
  rw [hf]

/-- Key list after a store on an absent key: the key is appended. -/
theorem keys_insert_absent (d : List (String × String)) (k0 v0 : String)
    (h : lookupS k0 d = none) :
    (pyDictInsert d k0 v0).map Prod.fst = d.map Prod.fst ++ [k0] := by
  unfold pyDictInsert
  rw [h, List.map_append]
  rfl

/-- A dict store preserves distinctness of keys. -/
theorem nodup_keys_insert (d : List (String × String)) (k0 v0 : String)
    (h : (d.map Prod.fst).Nodup) :
    ((pyDictInsert d k0 v0).map Prod.fst).Nodup := by
  cases hl : lookupS k0 d with
  | some w => rw [keys_insert_present d k0 v0 w hl]; exact h
  | none =>
    rw [keys_insert_absent d k0 v0 hl, List.nodup_append]
    refine ⟨h, by simp, fun a ha hb => ?_⟩
    rw [List.mem_singleton] at hb
    exact (lookupS_eq_none_iff k0 d).mp hl (hb ▸ ha)

/-- `setdefault` preserves distinctness of keys. -/
theorem nodup_keys_setdefault (d : List (String × String)) (k0 v0 : String)
    (h : (d.map Prod.fst).Nodup) :
    ((setdefaultD d k0 v0).map Prod.fst).Nodup := by
  unfold setdefaultD
  cases hl : lookupS k0 d with
  | some w => exact h
  | none =>
    rw [List.map_append, List.nodup_append]
    refine ⟨h, by simp, fun a ha hb => ?_⟩
    simp only [List.map_cons, List.map_nil, List.mem_singleton] at hb
    exact (lookupS_eq_none_iff k0 d).mp hl (hb ▸ ha)

/-- The keys of `dict(parse_qsl(q))` are pairwise distinct: duplicate
query keys are collapsed. -/
theorem nodup_keys_pyDict (l : List (String × String)) :
    ((pyDict l).map Prod.fst).Nodup := by
  induction l using List.reverseRecOn with
  | nil => exact List.nodup_nil
  | append_singleton l x ih =>
    rw [pyDict_append_single]
    exact nodup_keys_insert _ x.1 x.2 ih

/-! ### Claim C6 -/

/-- C6 counterexample: a repeated query key of the initial URL is NOT
preserved with its multiplicity — `dict(parse_qsl(...))` collapses
`a=1&a=2` to the single binding `a=2`, so the rebuilt query loses
`("a", "1")`. -/
theorem C6_duplicate_key_collapsed :
    ("a", "1") ∈ [("a", "1"), ("a", "2")]
      ∧ rebuildQuery [("a", "1"), ("a", "2")] 1
          = [("a", "2"), ("per_page", "10"), ("page", "1")]
      ∧ ("a", "1") ∉ rebuildQuery [("a", "1"), ("a", "2")] 1 := by
  decide

/-- C6 amended: the rebuilt page URL's query binds `page` to the current
page number and `per_page` to the initial URL's LAST `per_page` value
(default `"10"` when absent); every other key keeps the LAST value it
had in the initial URL and appears at most once — repeated keys are
collapsed to one occurrence rather than preserved with multiplicity. -/
theorem C6_rebuild_query (qsl : List (String × String)) (page : Nat)
    (k : String) (hk1 : k ≠ "page") (hk2 : k ≠ "per_page") :
    lookupS "page" (rebuildQuery qsl page) = some (toString page)
      ∧ lookupS "per_page" (rebuildQuery qsl page)
          = some ((lastLookup qsl "per_page").getD "10")
      ∧ lookupS k (rebuildQuery qsl page) = lastLookup qsl k
      ∧ ((rebuildQuery qsl page).map Prod.fst).Nodup := by
  unfold rebuildQuery
  refine ⟨?_, ?_, ?_, ?_⟩
  · rw [lookupS_insert, if_pos rfl]
  · rw [lookupS_insert, if_neg (by decide), lookupS_setdefault, if_pos rfl,
      lookupS_pyDict]
  · rw [lookupS_insert, if_neg (fun h => hk1 h.symm), lookupS_setdefault,
      if_neg (fun h => hk2 h.symm), lookupS_pyDict]
  · exact nodup_keys_insert _ _ _
      (nodup_keys_setdefault _ _ _ (nodup_keys_pyDict qsl))

/-- Witness for C6's amended statement on a query with the duplicated
key `a`: the rebuilt query keeps only the last binding `a=2`. -/
theorem C6_rebuild_query_witness :
    lookupS "page" (rebuildQuery [("shelf", "read"), ("a", "1"), ("a", "2")] 2)
        = some "2"
      ∧ lookupS "per_page" (rebuildQuery [("shelf", "read"), ("a", "1"), ("a", "2")] 2)
          = some "10"
      ∧ lookupS "a" (rebuildQuery [("shelf", "read"), ("a", "1"), ("a", "2")] 2)
          = some "2"
      ∧ ((rebuildQuery [("shelf", "read"), ("a", "1"), ("a", "2")] 2).map Prod.fst).Nodup :=
  C6_rebuild_query [("shelf", "read"), ("a", "1"), ("a", "2")] 2 "a"
    (by decide) (by decide)

/-! ### Claims C5 and C10 -/

/-- C5: with an effective per-page size of 10, one loop iteration stops
without appending on an empty page, stops after appending on a short
nonempty page, and otherwise appends, increments the page counter and
continues; hence pages yielding 10, 10 and 4 records give exactly 3
fetches and the 24 records in page order, and an empty first page gives
exactly 1 fetch and no records. -/
theorem C5_pagination {α : Type} (qsl : List (String × String))
    (fetch : Nat → List α) (hpp : perPageOf qsl = some 10) :
    (∀ fuel page acc fc, fetch page = [] →
        shelfLoop qsl fetch (fuel + 1) page acc fc = some (acc, fc + 1))
      ∧ (∀ fuel page acc fc, fetch page ≠ [] → (fetch page).length < 10 →
          shelfLoop qsl fetch (fuel + 1) page acc fc
            = some (acc ++ fetch page, fc + 1))
      ∧ (∀ fuel page acc fc, 10 ≤ (fetch page).length →
          shelfLoop qsl fetch (fuel + 1) page acc fc
            = shelfLoop qsl fetch fuel (page + 1) (acc ++ fetch page) (fc + 1))
      ∧ ((fetch 1).length = 10 → (fetch 2).length = 10 → (fetch 3).length = 4 →
          ∀ fuel, collect qsl fetch (fuel + 3)
              = some (fetch 1 ++ fetch 2 ++ fetch 3, 3)
            ∧ (fetch 1 ++ fetch 2 ++ fetch 3).length = 24)
      ∧ (fetch 1 = [] → ∀ fuel, collect qsl fetch (fuel + 1) = some ([], 1)) := by
  have step0 : ∀ fuel page acc fc, fetch page = [] →
      shelfLoop qsl fetch (fuel + 1) page acc fc = some (acc, fc + 1) := by
    intro fuel page acc fc h
    simp [shelfLoop, h]
  have stepShort : ∀ fuel page acc fc, fetch page ≠ [] →
      (fetch page).length < 10 →
      shelfLoop qsl fetch (fuel + 1) page acc fc
        = some (acc ++ fetch page, fc + 1) := by
    intro fuel page acc fc h hl
    have hne : (fetch page).isEmpty = false := by
      simp [List.isEmpty_iff, h]
    simp only [shelfLoop, hne, Bool.false_eq_true, if_false, hpp]
    rw [if_pos (by exact_mod_cast hl)]
  have stepFull : ∀ fuel page acc fc, 10 ≤ (fetch page).length →
      shelfLoop qsl fetch (fuel + 1) page acc fc
        = shelfLoop qsl fetch fuel (page + 1) (acc ++ fetch page) (fc + 1) := by
    intro fuel page acc fc hge
    have h : fetch page ≠ [] := by
      intro he
      rw [he] at hge
      simp at hge
    have hne : (fetch page).isEmpty = false := by
      simp [List.isEmpty_iff, h]
    simp only [shelfLoop, hne, Bool.false_eq_true, if_false, hpp]
    rw [if_neg (by exact_mod_cast Nat.not_lt.mpr hge)]
  refine ⟨step0, stepShort, stepFull, ?_, ?_⟩
  · intro h1 h2 h3 fuel
    constructor
    · show shelfLoop qsl fetch (fuel + 2 + 1) 1 [] 0 = _
      rw [stepFull (fuel + 2) 1 [] 0 (by rw [h1])]
      rw [stepFull (fuel + 1) 2 ([] ++ fetch 1) 1 (by rw [h2])]
      rw [stepShort fuel 3 ([] ++ fetch 1 ++ fetch 2) 2
        (by intro he; rw [he] at h3; cases h3) (by rw [h3]; decide)]
      simp
    · simp [h1, h2, h3]
  · intro h fuel
    exact step0 fuel 1 [] 0 h

/-- The concrete fetch behaviour of the spec's pagination scenario:
pages 1 and 2 full (10 records), page 3 short (4 records). -/
def fetchSample : Nat → List Nat := fun p =>
  if p = 1 then List.range 10
  else if p = 2 then List.range 10
  else if p = 3 then List.range 4
  else []

/-- Witness for C5: both pagination scenarios at concrete fetches. -/
theorem C5_pagination_witness :
    collect [] fetchSample 3 = some (List.range 10 ++ List.range 10 ++ List.range 4, 3)
      ∧ collect [] (fun _ => ([] : List Nat)) 1 = some ([], 1) :=
  ⟨((C5_pagination [] fetchSample (by decide)).2.2.2.1
      (by decide) (by decide) (by decide) 0).1,
   (C5_pagination [] (fun _ => ([] : List Nat)) (by decide)).2.2.2.2 rfl 0⟩

/-- C10: when the initial URL carries a `per_page` value that `int`
cannot parse, the loop does not raise: the `ValueError` handler leaves
`per_page = None`, so after fetching page 1 the `per_page is None or
short page` test stops the loop unconditionally — one fetch, that page's
records (appended when nonempty), even for a full page. -/
theorem C10_unparseable_per_page {α : Type} (qsl : List (String × String))
    (fetch : Nat → List α) (v : String)
    (hv : lookupS "per_page" (pyDict qsl) = some v) (hpv : pyInt v = none)
    (fuel : Nat) :
    collect qsl fetch (fuel + 1) = some (fetch 1, 1) := by
  have hpp : perPageOf qsl = none := by
    unfold perPageOf setdefaultD
    rw [hv]
    simp [hv, hpv]
  unfold collect
  cases hf : fetch 1 with
  | nil => simp [shelfLoop, hf]
  | cons x xs =>
    have hne : (fetch 1).isEmpty = false := by simp [hf]
    simp [shelfLoop, hne, hpp, hf]

/-- Witness for C10: `per_page=abc` with a full first page stops after
one fetch and keeps that page's records. -/
theorem C10_unparseable_per_page_witness :
    collect [("per_page", "abc")] (fun _ => List.range 10) 1
      = some (List.range 10, 1) :=
  C10_unparseable_per_page [("per_page", "abc")] (fun _ => List.range 10)
    "abc" (by decide) (by decide) 0

end GoodScraper

namespace GoodScraper

/-- Spot checks of the extraction heuristics on the spec's examples. -/
theorem extraction_spot_checks :
    extract_int_from_text (some "352 pages") = some 352
      ∧ extract_int_from_text (some "1,024") = some 1024
      ∧ extract_int_from_text (some "N/A") = none
      ∧ pyInt "10" = some 10
      ∧ pyInt " -1_0 " = some (-10)
      ∧ pyInt "1__0" = none
      ∧ pyInt "abc" = none
      ∧ parse_shelf [rowA] none = [recA] := by
  decide

end GoodScraper
